import Mathlib

/-!
# Provider configuration of terraform-provider-neodigit

Shallow embedding of `internal/provider/provider.go`: the provider's
`Metadata`, `Schema`, `Configure` and `New`, together with the small part of
the plugin framework they touch (three-state string values, diagnostics with
their append discipline, the configure request and response).

Stateful code is written as explicit state passing: a method that mutates
its response takes the response and returns the updated one.
-/

set_option autoImplicit false

namespace Neodigit

/-! ## Framework values: `types.String` -/

/-- A framework string value (`types.String`): null, unknown, or a known value. -/
inductive TypesString where
  | null
  | unknown
  | known (value : String)
deriving DecidableEq, Repr

namespace TypesString

/-- The method `IsNull`: true only for the null state. -/
def IsNull : TypesString → Bool
  | null => true
  | _ => false

/-- The method `IsUnknown`: true only for the unknown state. -/
def IsUnknown : TypesString → Bool
  | unknown => true
  | _ => false

/-- The method `ValueString`: the known value, and the empty string for a
null or unknown value. -/
def ValueString : TypesString → String
  | known v => v
  | _ => ""

end TypesString

/-! ## Framework diagnostics -/

/-- Severity of a diagnostic. -/
inductive Severity where
  | Error
  | Warning
deriving DecidableEq, Repr

/-- A diagnostic: severity, optional attribute path (the name given to
`path.Root`), summary and detail. Two diagnostics are equal when all four
agree, which is the framework's `Equal`. -/
structure Diagnostic where
  severity : Severity
  path : Option String
  summary : String
  detail : String
deriving DecidableEq, Repr

/-- The diagnostics collection of a response (`diag.Diagnostics`). -/
abbrev Diagnostics := List Diagnostic

namespace Diagnostics

/-- The method `HasError`: some diagnostic has error severity. -/
def HasError (diags : Diagnostics) : Bool :=
  diags.any (fun d => decide (d.severity = Severity.Error))

/-- The method `Contains`: some diagnostic equals the given one. -/
def Contains (diags : Diagnostics) (d : Diagnostic) : Bool :=
  diags.any (fun x => decide (x = d))

/-- The method `Append`: adds the given diagnostics one by one at the end,
skipping each one that the collection already contains. -/
def Append (diags : Diagnostics) (new : List Diagnostic) : Diagnostics :=
  new.foldl (fun acc d => if Contains acc d then acc else acc ++ [d]) diags

/-- The method `AddAttributeError`: appends an error diagnostic carrying the
attribute path. -/
def AddAttributeError (diags : Diagnostics) (root : String) (summary detail : String) :
    Diagnostics :=
  Append diags [Diagnostic.mk Severity.Error (some root) summary detail]

end Diagnostics

/-! ## Process state read by the provider -/

/-- A client handle (a pointer to an `http.Client`), identified by its address. -/
structure HttpClient where
  addr : Nat
deriving DecidableEq, Repr

/-- The part of the process the provider reads: the environment variables and
the package variable `http.DefaultClient`. -/
structure Process where
  environ : List (String × String)
  DefaultClient : HttpClient

/-- The function `os.Getenv`: the value of the variable, or the empty string
when the variable is not present. -/
def Process.Getenv (ps : Process) (key : String) : String :=
  (ps.environ.lookup key).getD ""

/-! ## Provider types -/

/-- The provider implementation struct. -/
structure NeodigitProvider where
  version : String
  Endpoint : TypesString
  Api_key : TypesString
deriving DecidableEq, Repr

/-- The provider data model struct. -/
structure NeodigitProviderModel where
  Endpoint : TypesString
  Api_key : TypesString
deriving DecidableEq, Repr

/-! ## Metadata -/

/-- The framework's metadata request (it carries no field). -/
structure MetadataRequest where
deriving DecidableEq, Repr

/-- The framework's metadata response. -/
structure MetadataResponse where
  TypeName : String
  Version : String
deriving DecidableEq, Repr

/-- The method `Metadata`: writes the type name and the version into the
response. -/
def NeodigitProvider.Metadata (p : NeodigitProvider) (_req : MetadataRequest)
    (resp : MetadataResponse) : MetadataResponse :=
  let resp := { resp with TypeName := "scaffolding" }
  let resp := { resp with Version := p.version }
  resp

/-- The constructor `New`: a function that builds a provider holding the given
version; the other fields keep their zero value, the null string. -/
def New (version : String) : Unit → NeodigitProvider :=
  fun _ => { version := version, Endpoint := TypesString.null, Api_key := TypesString.null }

/-! ## Schema -/

/-- The fields of a schema attribute that the provider sets; a field left out
of a literal is false (or empty). -/
structure AttributeFields where
  MarkdownDescription : String := ""
  Required : Bool := false
  Optional : Bool := false
  Sensitive : Bool := false
deriving DecidableEq, Repr

/-- A schema attribute, tagged with its kind. -/
inductive Attribute where
  | StringAttribute (f : AttributeFields)
  | BoolAttribute (f : AttributeFields)
  | Int64Attribute (f : AttributeFields)
deriving DecidableEq, Repr

/-- The fields of an attribute, whatever its kind. -/
def Attribute.fields : Attribute → AttributeFields
  | StringAttribute f => f
  | BoolAttribute f => f
  | Int64Attribute f => f

/-- Whether the attribute is a string attribute. -/
def Attribute.isString : Attribute → Bool
  | StringAttribute _ => true
  | _ => false

/-- A schema: the attribute map, as a list of name and attribute pairs. -/
structure Schema where
  Attributes : List (String × Attribute)
deriving DecidableEq, Repr

/-- The framework's schema request (it carries no field). -/
structure SchemaRequest where
deriving DecidableEq, Repr

/-- The framework's schema response. -/
structure SchemaResponse where
  Schema : Schema
  Diagnostics : Diagnostics
deriving DecidableEq, Repr

/-- The method `Schema`: stores the provider schema in the response. -/
def NeodigitProvider.Schema (_p : NeodigitProvider) (_req : SchemaRequest)
    (resp : SchemaResponse) : SchemaResponse :=
  { resp with
    Schema :=
      { Attributes :=
          [ ("endpoint", Attribute.StringAttribute
              { MarkdownDescription := "Provider endpoint", Optional := true }),
            ("api_key", Attribute.StringAttribute
              { MarkdownDescription := "API Key", Optional := true, Sensitive := true }) ] } }

/-! ## Configure -/

/-- The configuration of a configure request, given by what decoding it into
the model yields: the populated model and the diagnostics of the decoding. -/
structure Config where
  model : NeodigitProviderModel
  diags : Diagnostics

/-- The method `Get` of the configuration: the decoded model and the
diagnostics. -/
def Config.Get (c : Config) : NeodigitProviderModel × Diagnostics :=
  (c.model, c.diags)

/-- The framework's configure request. -/
structure ConfigureRequest where
  Config : Config

/-- The framework's configure response; a data field that is not set is
`none`. -/
structure ConfigureResponse where
  Diagnostics : Diagnostics
  DataSourceData : Option HttpClient
  ResourceData : Option HttpClient
deriving DecidableEq, Repr

/-- A run of `Configure`: the response it leaves, and the final values of the
local variables `endpoint` and `api_key` (`none` when the run returned before
they were assigned). -/
structure ConfigureRun where
  resp : ConfigureResponse
  endpoint : Option String
  api_key : Option String
deriving DecidableEq, Repr

/-- The body of the method `Configure`, statement by statement. -/
def NeodigitProvider.ConfigureRun (_p : NeodigitProvider) (ps : Process)
    (req : ConfigureRequest) (resp : ConfigureResponse) : ConfigureRun :=
  let config := req.Config.Get.1
  let resp := { resp with Diagnostics := resp.Diagnostics.Append req.Config.Get.2 }
  if resp.Diagnostics.HasError then
    { resp := resp, endpoint := none, api_key := none }
  else
    let resp :=
      if config.Endpoint.IsUnknown then
        { resp with Diagnostics := (resp.Diagnostics.AddAttributeError "endpoint"
            "Missing endpoint required for provider configuration."
            "The provider cannot create the client without the endpoint.") }
      else resp
    let resp :=
      if config.Api_key.IsUnknown then
        { resp with Diagnostics := (resp.Diagnostics.AddAttributeError "api_key"
            "Missing api_key required for provider configuration."
            "The provider cannot create the client without the api_key.") }
      else resp
    let endpoint := ps.Getenv "NEODIGIT_ENDPOINT"
    let api_key := ps.Getenv "NEODIGIT_API_KEY"
    let endpoint := if !config.Endpoint.IsNull then config.Endpoint.ValueString else endpoint
    let api_key := if !config.Api_key.IsNull then config.Api_key.ValueString else api_key
    let resp :=
      if endpoint == "" then
        { resp with Diagnostics := (resp.Diagnostics.AddAttributeError "endpoint"
            "Set Terraform environment variable NEODIGIT_ENDPOINT"
            "If either is already set, ensure the value is not empty.") }
      else resp
    let resp :=
      if api_key == "" then
        { resp with Diagnostics := (resp.Diagnostics.AddAttributeError "api_key"
            "Set Terraform environment variable NEODIGIT_API_KEY"
            "If either is already set, ensure the value is not empty.") }
      else resp
    let client := ps.DefaultClient
    let resp := { resp with DataSourceData := some client }
    let resp := { resp with ResourceData := some client }
    { resp := resp, endpoint := some endpoint, api_key := some api_key }

/-- The method `Configure`: the response that the body leaves. -/
def NeodigitProvider.Configure (p : NeodigitProvider) (ps : Process)
    (req : ConfigureRequest) (resp : ConfigureResponse) : ConfigureResponse :=
  (p.ConfigureRun ps req resp).resp

/-! ## The four diagnostics of `Configure`, and readings of a response -/

/-- The error for an endpoint whose value is unknown, on path `endpoint`. -/
def unresolvedEndpoint : Diagnostic :=
  Diagnostic.mk Severity.Error (some "endpoint")
    "Missing endpoint required for provider configuration."
    "The provider cannot create the client without the endpoint."

/-- The error for an API key whose value is unknown, on path `api_key`. -/
def unresolvedApiKey : Diagnostic :=
  Diagnostic.mk Severity.Error (some "api_key")
    "Missing api_key required for provider configuration."
    "The provider cannot create the client without the api_key."

/-- The error for an effective endpoint that is empty, on path `endpoint`. -/
def missingEndpoint : Diagnostic :=
  Diagnostic.mk Severity.Error (some "endpoint")
    "Set Terraform environment variable NEODIGIT_ENDPOINT"
    "If either is already set, ensure the value is not empty."

/-- The error for an effective API key that is empty, on path `api_key`. -/
def missingApiKey : Diagnostic :=
  Diagnostic.mk Severity.Error (some "api_key")
    "Set Terraform environment variable NEODIGIT_API_KEY"
    "If either is already set, ensure the value is not empty."

/-- The diagnostics of the response once the configuration has been decoded,
that is, before any of the four checks. -/
def decodedDiagnostics (req : ConfigureRequest) (resp : ConfigureResponse) : Diagnostics :=
  resp.Diagnostics.Append req.Config.Get.2

/-- The response the framework hands to `Configure`: no diagnostic, no data. -/
def emptyResponse : ConfigureResponse :=
  { Diagnostics := [], DataSourceData := none, ResourceData := none }

/-- A request whose configuration decodes without diagnostics into the given
endpoint and API key. -/
def requestOf (endpoint api_key : TypesString) : ConfigureRequest :=
  { Config := { model := { Endpoint := endpoint, Api_key := api_key }, diags := [] } }

/-- A request whose decoding failed: the decoding reports one error and the
model keeps its zero value, both fields null. -/
def requestDecodeError : ConfigureRequest :=
  { Config :=
      { model := { Endpoint := TypesString.null, Api_key := TypesString.null },
        diags := [Diagnostic.mk Severity.Error none "Value Conversion Error"
          "An unexpected error was encountered trying to build a value."] } }

/-- A process with the given environment and a default client at address 1. -/
def processOf (environ : List (String × String)) : Process :=
  { environ := environ, DefaultClient := { addr := 1 } }

/-! ## Lemmas on diagnostics -/

theorem Diagnostics.Contains_nil (d : Diagnostic) : Diagnostics.Contains [] d = false := rfl

theorem Diagnostics.Contains_append (xs ys : Diagnostics) (d : Diagnostic) :
    Diagnostics.Contains (xs ++ ys) d = (Diagnostics.Contains xs d || Diagnostics.Contains ys d) := by
  simp [Diagnostics.Contains]

theorem Diagnostics.Contains_iff_mem (xs : Diagnostics) (d : Diagnostic) :
    Diagnostics.Contains xs d = true ↔ d ∈ xs := by
  simp [Diagnostics.Contains]

theorem Diagnostics.not_mem_of_noError (xs : Diagnostics) (d : Diagnostic)
    (h : Diagnostics.HasError xs = false) (hd : d.severity = Severity.Error) : d ∉ xs := by
  intro hm
  have : Diagnostics.HasError xs = true := by
    simp only [Diagnostics.HasError, List.any_eq_true, decide_eq_true_eq]
    exact ⟨d, hm, hd⟩
  rw [h] at this
  exact Bool.false_ne_true this

theorem Diagnostics.AddAttributeError_of_not_mem (xs : Diagnostics) (root summary detail : String)
    (h : Diagnostic.mk Severity.Error (some root) summary detail ∉ xs) :
    Diagnostics.AddAttributeError xs root summary detail
      = xs ++ [Diagnostic.mk Severity.Error (some root) summary detail] := by
  have hc : Diagnostics.Contains xs (Diagnostic.mk Severity.Error (some root) summary detail)
      = false := by
    cases hb : Diagnostics.Contains xs (Diagnostic.mk Severity.Error (some root) summary detail)
    · rfl
    · exact absurd ((Diagnostics.Contains_iff_mem _ _).1 hb) h
  simp [Diagnostics.AddAttributeError, Diagnostics.Append, hc]

theorem Diagnostics.Contains_cons (x : Diagnostic) (xs : Diagnostics) (d : Diagnostic) :
    Diagnostics.Contains (x :: xs) d = (decide (x = d) || Diagnostics.Contains xs d) := by
  simp [Diagnostics.Contains]

theorem Diagnostics.Contains_error_of_noError (xs : Diagnostics) (root : Option String)
    (summary detail : String) (h : Diagnostics.HasError xs = false) :
    Diagnostics.Contains xs (Diagnostic.mk Severity.Error root summary detail) = false := by
  cases hb : Diagnostics.Contains xs (Diagnostic.mk Severity.Error root summary detail)
  · rfl
  · exact absurd ((Diagnostics.Contains_iff_mem _ _).1 hb)
      (Diagnostics.not_mem_of_noError _ _ h rfl)

theorem TypesString.four_cases (s : TypesString) :
    s = TypesString.null ∨ s = TypesString.unknown ∨ s = TypesString.known "" ∨
      ∃ v, v ≠ "" ∧ s = TypesString.known v := by
  cases s with
  | null => exact Or.inl rfl
  | unknown => exact Or.inr (Or.inl rfl)
  | known v =>
    by_cases hv : v = ""
    · exact Or.inr (Or.inr (Or.inl (by rw [hv])))
    · exact Or.inr (Or.inr (Or.inr ⟨v, hv, rfl⟩))

theorem ConfigureRun_of_decoded (p : NeodigitProvider) (ps : Process) (req : ConfigureRequest)
    (resp : ConfigureResponse)
    (h : Diagnostics.HasError (decodedDiagnostics req resp) = false) :
    p.ConfigureRun ps req resp =
      { resp :=
          { Diagnostics := decodedDiagnostics req resp
              ++ (if req.Config.Get.1.Endpoint.IsUnknown then [unresolvedEndpoint] else [])
              ++ (if req.Config.Get.1.Api_key.IsUnknown then [unresolvedApiKey] else [])
              ++ (if (if req.Config.Get.1.Endpoint.IsNull then ps.Getenv "NEODIGIT_ENDPOINT"
                        else req.Config.Get.1.Endpoint.ValueString) = ""
                    then [missingEndpoint] else [])
              ++ (if (if req.Config.Get.1.Api_key.IsNull then ps.Getenv "NEODIGIT_API_KEY"
                        else req.Config.Get.1.Api_key.ValueString) = ""
                    then [missingApiKey] else []),
            DataSourceData := some ps.DefaultClient,
            ResourceData := some ps.DefaultClient },
        endpoint := some (if req.Config.Get.1.Endpoint.IsNull then ps.Getenv "NEODIGIT_ENDPOINT"
                            else req.Config.Get.1.Endpoint.ValueString),
        api_key := some (if req.Config.Get.1.Api_key.IsNull then ps.Getenv "NEODIGIT_API_KEY"
                            else req.Config.Get.1.Api_key.ValueString) } := by
  have hc := fun (r : Option String) (s t : String) =>
    Diagnostics.Contains_error_of_noError (decodedDiagnostics req resp) r s t h
  unfold decodedDiagnostics at h hc
  unfold NeodigitProvider.ConfigureRun decodedDiagnostics
  generalize resp.Diagnostics.Append req.Config.Get.2 = pre at h hc ⊢
  simp only [h]
  rcases TypesString.four_cases req.Config.Get.1.Endpoint with he | he | he | ⟨_, hv, he⟩ <;>
    rcases TypesString.four_cases req.Config.Get.1.Api_key with hk | hk | hk | ⟨_, hw, hk⟩ <;>
    by_cases h1 : ps.Getenv "NEODIGIT_ENDPOINT" = "" <;>
    by_cases h2 : ps.Getenv "NEODIGIT_API_KEY" = "" <;>
    simp [*, TypesString.IsUnknown, TypesString.IsNull, TypesString.ValueString,
      Diagnostics.AddAttributeError, Diagnostics.Append, Diagnostics.Contains_append,
      Diagnostics.Contains_cons, Diagnostics.Contains_nil,
      unresolvedEndpoint, unresolvedApiKey, missingEndpoint, missingApiKey]

theorem ConfigureRun_of_decode_error (p : NeodigitProvider) (ps : Process)
    (req : ConfigureRequest) (resp : ConfigureResponse)
    (h : Diagnostics.HasError (decodedDiagnostics req resp) = true) :
    p.ConfigureRun ps req resp =
      { resp := { resp with Diagnostics := decodedDiagnostics req resp },
        endpoint := none, api_key := none } := by
  unfold decodedDiagnostics at h
  unfold NeodigitProvider.ConfigureRun decodedDiagnostics
  simp only [h, if_true]

/-! ## Metadata and schema -/

/-- Claim C8: for every version string, the provider built by `New` reports the
type name "scaffolding" and that version unchanged, whatever the request, the
response handed in, and the provider's `Endpoint` and `Api_key` fields. -/
theorem Metadata_of_New (v : String) (req : MetadataRequest) (resp : MetadataResponse)
    (e k : TypesString) :
    (New v ()).Metadata req resp = { TypeName := "scaffolding", Version := v } ∧
    ({ New v () with Endpoint := e, Api_key := k } : NeodigitProvider).Metadata req resp
      = { TypeName := "scaffolding", Version := v } :=
  ⟨rfl, rfl⟩

/-- Claim C9: the schema has exactly the two attributes `endpoint` and
`api_key`; both are string attributes, optional and not required; `api_key`
is sensitive and `endpoint` is not. -/
theorem Schema_attributes (p : NeodigitProvider) (req : SchemaRequest) (resp : SchemaResponse) :
    (p.Schema req resp).Schema.Attributes.length = 2 ∧
    (∀ name : String, ((p.Schema req resp).Schema.Attributes.lookup name).isSome = true ↔
      (name = "endpoint" ∨ name = "api_key")) ∧
    ((p.Schema req resp).Schema.Attributes.lookup "endpoint").map
        (fun a => (a.isString, a.fields.Optional, a.fields.Required, a.fields.Sensitive))
      = some (true, true, false, false) ∧
    ((p.Schema req resp).Schema.Attributes.lookup "api_key").map
        (fun a => (a.isString, a.fields.Optional, a.fields.Required, a.fields.Sensitive))
      = some (true, true, false, true) := by
  refine ⟨rfl, ?_, by simp [NeodigitProvider.Schema, List.lookup, Attribute.isString,
    Attribute.fields], by simp [NeodigitProvider.Schema, List.lookup, Attribute.isString,
    Attribute.fields]⟩
  intro name
  simp only [NeodigitProvider.Schema, List.lookup]
  by_cases h1 : name = "endpoint"
  · subst h1; simp
  · by_cases h2 : name = "api_key"
    · subst h2; simp
    · have e1 : (name == "endpoint") = false := by simpa using h1
      have e2 : (name == "api_key") = false := by simpa using h2
      simp [e1, e2, h1, h2]

/-! ## Effective values -/

/-- Claim C1: when the checks are reached (decoding the configuration reported
no error), the effective endpoint is the configured value when the endpoint is
set, also when that value is empty, and the reading of `NEODIGIT_ENDPOINT` when
it is absent; likewise the effective API key with `NEODIGIT_API_KEY`. -/
theorem Configure_effective_values (p : NeodigitProvider) (ps : Process)
    (req : ConfigureRequest) (resp : ConfigureResponse)
    (h : Diagnostics.HasError (decodedDiagnostics req resp) = false) :
    (∀ v, req.Config.Get.1.Endpoint = TypesString.known v →
      (p.ConfigureRun ps req resp).endpoint = some v) ∧
    (req.Config.Get.1.Endpoint = TypesString.null →
      (p.ConfigureRun ps req resp).endpoint = some (ps.Getenv "NEODIGIT_ENDPOINT")) ∧
    (∀ w, req.Config.Get.1.Api_key = TypesString.known w →
      (p.ConfigureRun ps req resp).api_key = some w) ∧
    (req.Config.Get.1.Api_key = TypesString.null →
      (p.ConfigureRun ps req resp).api_key = some (ps.Getenv "NEODIGIT_API_KEY")) := by
  rw [ConfigureRun_of_decoded p ps req resp h]
  refine ⟨?_, ?_, ?_, ?_⟩
  · intro v hv; simp [hv, TypesString.IsNull, TypesString.ValueString]
  · intro hv; simp [hv, TypesString.IsNull]
  · intro w hw; simp [hw, TypesString.IsNull, TypesString.ValueString]
  · intro hw; simp [hw, TypesString.IsNull]

/-- Witness of C1: an endpoint set to the empty string beats a populated
environment, and an absent API key falls back to the environment. -/
theorem Configure_effective_values_witness :
    Diagnostics.HasError (decodedDiagnostics (requestOf (TypesString.known "") TypesString.null)
      emptyResponse) = false ∧
    ((New "dev" ()).ConfigureRun
      (processOf [("NEODIGIT_ENDPOINT", "https://api.example.com"), ("NEODIGIT_API_KEY", "k1")])
      (requestOf (TypesString.known "") TypesString.null) emptyResponse).endpoint = some "" ∧
    ((New "dev" ()).ConfigureRun
      (processOf [("NEODIGIT_ENDPOINT", "https://api.example.com"), ("NEODIGIT_API_KEY", "k1")])
      (requestOf (TypesString.known "") TypesString.null) emptyResponse).api_key = some "k1" :=
  ⟨by decide,
    (Configure_effective_values (New "dev" ())
      (processOf [("NEODIGIT_ENDPOINT", "https://api.example.com"), ("NEODIGIT_API_KEY", "k1")])
      (requestOf (TypesString.known "") TypesString.null) emptyResponse (by decide)).1 "" rfl,
    (Configure_effective_values (New "dev" ())
      (processOf [("NEODIGIT_ENDPOINT", "https://api.example.com"), ("NEODIGIT_API_KEY", "k1")])
      (requestOf (TypesString.known "") TypesString.null) emptyResponse (by decide)).2.2.2 rfl⟩

/-! ## The client is exposed even when the checks report errors -/

/-- Claim C2, evaluated on the code: with both fields absent and both
environment variables unset, `Configure` reports the two missing-value errors
and nevertheless sets `DataSourceData` and `ResourceData` to the client. -/
theorem Configure_sets_client_despite_errors :
    (NeodigitProvider.Configure (New "dev" ()) (processOf [])
        (requestOf TypesString.null TypesString.null) emptyResponse).Diagnostics
      = [missingEndpoint, missingApiKey] ∧
    Diagnostics.HasError (NeodigitProvider.Configure (New "dev" ()) (processOf [])
        (requestOf TypesString.null TypesString.null) emptyResponse).Diagnostics = true ∧
    (NeodigitProvider.Configure (New "dev" ()) (processOf [])
        (requestOf TypesString.null TypesString.null) emptyResponse).DataSourceData
      = some (processOf []).DefaultClient ∧
    (NeodigitProvider.Configure (New "dev" ()) (processOf [])
        (requestOf TypesString.null TypesString.null) emptyResponse).ResourceData
      = some (processOf []).DefaultClient := by
  decide

/-! ## The unresolved-value checks -/

/-- Claim C4: when the checks are reached, the diagnostics contain the
unresolved-endpoint error, which is on path `endpoint`, exactly when the
endpoint is unknown, and the unresolved-API-key error, which is on path
`api_key`, exactly when the API key is unknown, whatever the state of the other
field and the environment. -/
theorem Configure_unresolved_iff_unknown (p : NeodigitProvider) (ps : Process)
    (req : ConfigureRequest) (resp : ConfigureResponse)
    (h : Diagnostics.HasError (decodedDiagnostics req resp) = false) :
    (unresolvedEndpoint ∈ (p.Configure ps req resp).Diagnostics ↔
      req.Config.Get.1.Endpoint = TypesString.unknown) ∧
    (unresolvedApiKey ∈ (p.Configure ps req resp).Diagnostics ↔
      req.Config.Get.1.Api_key = TypesString.unknown) ∧
    unresolvedEndpoint.path = some "endpoint" ∧ unresolvedApiKey.path = some "api_key" ∧
    unresolvedEndpoint.severity = Severity.Error ∧
    unresolvedApiKey.severity = Severity.Error := by
  have n1 : unresolvedEndpoint ∉ decodedDiagnostics req resp :=
    Diagnostics.not_mem_of_noError _ _ h rfl
  have n2 : unresolvedApiKey ∉ decodedDiagnostics req resp :=
    Diagnostics.not_mem_of_noError _ _ h rfl
  unfold NeodigitProvider.Configure
  rw [ConfigureRun_of_decoded p ps req resp h]
  refine ⟨?_, ?_, rfl, rfl, rfl, rfl⟩
  · rcases TypesString.four_cases req.Config.Get.1.Endpoint with he | he | he | ⟨_, hv, he⟩ <;>
      simp [*, TypesString.IsUnknown, TypesString.IsNull, TypesString.ValueString] <;>
      split_ifs <;> simp [unresolvedEndpoint, unresolvedApiKey, missingEndpoint, missingApiKey]
  · rcases TypesString.four_cases req.Config.Get.1.Api_key with hk | hk | hk | ⟨_, hw, hk⟩ <;>
      simp [*, TypesString.IsUnknown, TypesString.IsNull, TypesString.ValueString] <;>
      split_ifs <;> simp [unresolvedEndpoint, unresolvedApiKey, missingEndpoint, missingApiKey]

/-- Witness of C4: an unknown endpoint next to a set API key. -/
theorem Configure_unresolved_iff_unknown_witness :
    Diagnostics.HasError (decodedDiagnostics
      (requestOf TypesString.unknown (TypesString.known "k1")) emptyResponse) = false ∧
    unresolvedEndpoint ∈ (NeodigitProvider.Configure (New "dev" ())
      (processOf [("NEODIGIT_ENDPOINT", "https://api.example.com")])
      (requestOf TypesString.unknown (TypesString.known "k1")) emptyResponse).Diagnostics ∧
    unresolvedApiKey ∉ (NeodigitProvider.Configure (New "dev" ())
      (processOf [("NEODIGIT_ENDPOINT", "https://api.example.com")])
      (requestOf TypesString.unknown (TypesString.known "k1")) emptyResponse).Diagnostics :=
  ⟨by decide,
    (Configure_unresolved_iff_unknown (New "dev" ())
      (processOf [("NEODIGIT_ENDPOINT", "https://api.example.com")])
      (requestOf TypesString.unknown (TypesString.known "k1")) emptyResponse (by decide)).1.2 rfl,
    fun hm => TypesString.noConfusion
      ((Configure_unresolved_iff_unknown (New "dev" ())
        (processOf [("NEODIGIT_ENDPOINT", "https://api.example.com")])
        (requestOf TypesString.unknown (TypesString.known "k1")) emptyResponse
        (by decide)).2.1.1 hm)⟩

/-! ## Scenario: endpoint set, API key unknown -/

/-- Claim C3 fails as stated: with the endpoint set to "https://x", the API
key unknown and `NEODIGIT_API_KEY` holding the non-empty "k1", `Configure`
emits two diagnostics, not one. -/
theorem Configure_unknown_api_key_env_set_two_diagnostics :
    (processOf [("NEODIGIT_API_KEY", "k1")]).Getenv "NEODIGIT_API_KEY" ≠ "" ∧
    (NeodigitProvider.Configure (New "dev" ()) (processOf [("NEODIGIT_API_KEY", "k1")])
        (requestOf (TypesString.known "https://x") TypesString.unknown) emptyResponse).Diagnostics
      = [unresolvedApiKey, missingApiKey] ∧
    (NeodigitProvider.Configure (New "dev" ()) (processOf [("NEODIGIT_API_KEY", "k1")])
        (requestOf (TypesString.known "https://x") TypesString.unknown) emptyResponse).Diagnostics
      ≠ [unresolvedApiKey] ∧
    (NeodigitProvider.Configure (New "dev" ()) (processOf [("NEODIGIT_API_KEY", "k1")])
        (requestOf (TypesString.known "https://x") TypesString.unknown)
        emptyResponse).Diagnostics.length ≠ 1 := by
  decide

/-- Claim C3 as amended: with the endpoint set to "https://x" and the API key
unknown, `Configure` emits exactly two diagnostics, the unresolved-API-key
error and then the missing-API-key error, whatever the environment holds; the
effective endpoint is "https://x". -/
theorem Configure_endpoint_set_api_key_unknown (p : NeodigitProvider) (ps : Process)
    (req : ConfigureRequest) (resp : ConfigureResponse)
    (h : Diagnostics.HasError (decodedDiagnostics req resp) = false)
    (he : req.Config.Get.1.Endpoint = TypesString.known "https://x")
    (hk : req.Config.Get.1.Api_key = TypesString.unknown) :
    (p.Configure ps req resp).Diagnostics
      = decodedDiagnostics req resp ++ [unresolvedApiKey, missingApiKey] ∧
    (p.ConfigureRun ps req resp).endpoint = some "https://x" := by
  unfold NeodigitProvider.Configure
  rw [ConfigureRun_of_decoded p ps req resp h]
  simp [he, hk, TypesString.IsUnknown, TypesString.IsNull, TypesString.ValueString]

/-- Witness of the amended C3, with `NEODIGIT_API_KEY` set and a response that
starts empty: the diagnostics are exactly the two errors. -/
theorem Configure_endpoint_set_api_key_unknown_witness :
    Diagnostics.HasError (decodedDiagnostics
      (requestOf (TypesString.known "https://x") TypesString.unknown) emptyResponse) = false ∧
    (NeodigitProvider.Configure (New "dev" ()) (processOf [("NEODIGIT_API_KEY", "k1")])
        (requestOf (TypesString.known "https://x") TypesString.unknown) emptyResponse).Diagnostics
      = [] ++ [unresolvedApiKey, missingApiKey] ∧
    ((New "dev" ()).ConfigureRun (processOf [("NEODIGIT_API_KEY", "k1")])
        (requestOf (TypesString.known "https://x") TypesString.unknown) emptyResponse).endpoint
      = some "https://x" :=
  ⟨by decide,
    Configure_endpoint_set_api_key_unknown (New "dev" ()) (processOf [("NEODIGIT_API_KEY", "k1")])
      (requestOf (TypesString.known "https://x") TypesString.unknown) emptyResponse
      (by decide) rfl rfl⟩

/-! ## Both effective values empty -/

/-- Claim C5 fails as stated: with the endpoint unknown, the API key absent and
both environment variables unset, both effective values are empty and
`Configure` emits three diagnostics, not two. -/
theorem Configure_both_empty_three_diagnostics :
    ((New "dev" ()).ConfigureRun (processOf [])
        (requestOf TypesString.unknown TypesString.null) emptyResponse).endpoint = some "" ∧
    ((New "dev" ()).ConfigureRun (processOf [])
        (requestOf TypesString.unknown TypesString.null) emptyResponse).api_key = some "" ∧
    (NeodigitProvider.Configure (New "dev" ()) (processOf [])
        (requestOf TypesString.unknown TypesString.null) emptyResponse).Diagnostics
      = [unresolvedEndpoint, missingEndpoint, missingApiKey] ∧
    (NeodigitProvider.Configure (New "dev" ()) (processOf [])
        (requestOf TypesString.unknown TypesString.null) emptyResponse).Diagnostics
      ≠ [missingEndpoint, missingApiKey] := by
  decide

/-- Claim C5 as amended: when neither field is unknown and both effective
values are empty, `Configure` emits exactly two diagnostics, the
missing-endpoint error on path `endpoint` and then the missing-API-key error on
path `api_key`, and the diagnostics report an error. -/
theorem Configure_both_empty_not_unknown (p : NeodigitProvider) (ps : Process)
    (req : ConfigureRequest) (resp : ConfigureResponse)
    (h : Diagnostics.HasError (decodedDiagnostics req resp) = false)
    (he : req.Config.Get.1.Endpoint ≠ TypesString.unknown)
    (hk : req.Config.Get.1.Api_key ≠ TypesString.unknown)
    (ee : (p.ConfigureRun ps req resp).endpoint = some "")
    (ek : (p.ConfigureRun ps req resp).api_key = some "") :
    (p.Configure ps req resp).Diagnostics
      = decodedDiagnostics req resp ++ [missingEndpoint, missingApiKey] ∧
    Diagnostics.HasError (p.Configure ps req resp).Diagnostics = true ∧
    missingEndpoint.path = some "endpoint" ∧ missingApiKey.path = some "api_key" := by
  unfold NeodigitProvider.Configure
  rw [ConfigureRun_of_decoded p ps req resp h] at ee ek ⊢
  simp only [Option.some.injEq] at ee ek
  refine ⟨?_, ?_, rfl, rfl⟩
  · rcases TypesString.four_cases req.Config.Get.1.Endpoint with h1 | h1 | h1 | ⟨_, hv, h1⟩ <;>
      rcases TypesString.four_cases req.Config.Get.1.Api_key with h2 | h2 | h2 | ⟨_, hw, h2⟩ <;>
      simp_all [TypesString.IsUnknown, TypesString.IsNull, TypesString.ValueString]
  · simp [ee, ek, Diagnostics.HasError, missingEndpoint]

/-- Witness of the amended C5, the scenario of the specification: both fields
absent, both environment variables empty, a response that starts empty. -/
theorem Configure_both_empty_not_unknown_witness :
    Diagnostics.HasError (decodedDiagnostics
      (requestOf TypesString.null TypesString.null) emptyResponse) = false ∧
    (NeodigitProvider.Configure (New "dev" ())
        (processOf [("NEODIGIT_ENDPOINT", ""), ("NEODIGIT_API_KEY", "")])
        (requestOf TypesString.null TypesString.null) emptyResponse).Diagnostics
      = [] ++ [missingEndpoint, missingApiKey] ∧
    Diagnostics.HasError (NeodigitProvider.Configure (New "dev" ())
        (processOf [("NEODIGIT_ENDPOINT", ""), ("NEODIGIT_API_KEY", "")])
        (requestOf TypesString.null TypesString.null) emptyResponse).Diagnostics = true :=
  ⟨by decide,
    (Configure_both_empty_not_unknown (New "dev" ())
      (processOf [("NEODIGIT_ENDPOINT", ""), ("NEODIGIT_API_KEY", "")])
      (requestOf TypesString.null TypesString.null) emptyResponse
      (by decide) (by decide) (by decide) (by decide) (by decide)).1,
    (Configure_both_empty_not_unknown (New "dev" ())
      (processOf [("NEODIGIT_ENDPOINT", ""), ("NEODIGIT_API_KEY", "")])
      (requestOf TypesString.null TypesString.null) emptyResponse
      (by decide) (by decide) (by decide) (by decide) (by decide)).2.1⟩

/-! ## Success -/

/-- Claim C6: when neither field is unknown and both effective values are
non-empty, `Configure` adds no diagnostic, and `DataSourceData` and
`ResourceData` are both set to one and the same client handle. -/
theorem Configure_success (p : NeodigitProvider) (ps : Process)
    (req : ConfigureRequest) (resp : ConfigureResponse) (e k : String)
    (h : Diagnostics.HasError (decodedDiagnostics req resp) = false)
    (he : req.Config.Get.1.Endpoint ≠ TypesString.unknown)
    (hk : req.Config.Get.1.Api_key ≠ TypesString.unknown)
    (ee : (p.ConfigureRun ps req resp).endpoint = some e) (hne : e ≠ "")
    (ek : (p.ConfigureRun ps req resp).api_key = some k) (hnk : k ≠ "") :
    (p.Configure ps req resp).Diagnostics = decodedDiagnostics req resp ∧
    (p.Configure ps req resp).DataSourceData = some ps.DefaultClient ∧
    (p.Configure ps req resp).ResourceData = some ps.DefaultClient ∧
    (p.Configure ps req resp).DataSourceData = (p.Configure ps req resp).ResourceData := by
  unfold NeodigitProvider.Configure
  rw [ConfigureRun_of_decoded p ps req resp h] at ee ek ⊢
  simp only [Option.some.injEq] at ee ek
  refine ⟨?_, rfl, rfl, rfl⟩
  rcases TypesString.four_cases req.Config.Get.1.Endpoint with h1 | h1 | h1 | ⟨_, hv, h1⟩ <;>
    rcases TypesString.four_cases req.Config.Get.1.Api_key with h2 | h2 | h2 | ⟨_, hw, h2⟩ <;>
    simp_all [TypesString.IsUnknown, TypesString.IsNull, TypesString.ValueString]

/-- Witness of C6, the scenario of the specification: both fields absent, the
environment holding "https://api.example.com" and "k1", a response that starts
empty: no diagnostic at all and the same client in both data fields. -/
theorem Configure_success_witness :
    Diagnostics.HasError (decodedDiagnostics
      (requestOf TypesString.null TypesString.null) emptyResponse) = false ∧
    (NeodigitProvider.Configure (New "dev" ())
        (processOf [("NEODIGIT_ENDPOINT", "https://api.example.com"), ("NEODIGIT_API_KEY", "k1")])
        (requestOf TypesString.null TypesString.null) emptyResponse).Diagnostics = [] ∧
    (NeodigitProvider.Configure (New "dev" ())
        (processOf [("NEODIGIT_ENDPOINT", "https://api.example.com"), ("NEODIGIT_API_KEY", "k1")])
        (requestOf TypesString.null TypesString.null) emptyResponse).DataSourceData
      = (NeodigitProvider.Configure (New "dev" ())
        (processOf [("NEODIGIT_ENDPOINT", "https://api.example.com"), ("NEODIGIT_API_KEY", "k1")])
        (requestOf TypesString.null TypesString.null) emptyResponse).ResourceData :=
  ⟨by decide,
    (Configure_success (New "dev" ())
      (processOf [("NEODIGIT_ENDPOINT", "https://api.example.com"), ("NEODIGIT_API_KEY", "k1")])
      (requestOf TypesString.null TypesString.null) emptyResponse "https://api.example.com" "k1"
      (by decide) (by decide) (by decide) (by decide) (by decide) (by decide) (by decide)).1,
    (Configure_success (New "dev" ())
      (processOf [("NEODIGIT_ENDPOINT", "https://api.example.com"), ("NEODIGIT_API_KEY", "k1")])
      (requestOf TypesString.null TypesString.null) emptyResponse "https://api.example.com" "k1"
      (by decide) (by decide) (by decide) (by decide) (by decide) (by decide) (by decide)).2.2.2⟩

/-! ## Accumulation of the four checks -/

/-- Claim C7 fails as stated: when the diagnostics hold an error once the
decoding diagnostics have been appended, here an error reported by the
decoding, `Configure` returns before the checks. With both fields null and
`NEODIGIT_ENDPOINT` unset the effective endpoint would be empty, yet no
missing-value error is appended and the local variables are never assigned. -/
theorem Configure_returns_before_checks :
    requestDecodeError.Config.Get.1.Endpoint = TypesString.null ∧
    (processOf []).Getenv "NEODIGIT_ENDPOINT" = "" ∧
    (NeodigitProvider.Configure (New "dev" ()) (processOf []) requestDecodeError
        emptyResponse).Diagnostics = requestDecodeError.Config.Get.2 ∧
    missingEndpoint ∉ (NeodigitProvider.Configure (New "dev" ()) (processOf [])
        requestDecodeError emptyResponse).Diagnostics ∧
    missingApiKey ∉ (NeodigitProvider.Configure (New "dev" ()) (processOf [])
        requestDecodeError emptyResponse).Diagnostics ∧
    ((New "dev" ()).ConfigureRun (processOf []) requestDecodeError emptyResponse).endpoint
      = none := by
  decide

/-- Claim C7 as amended: when the diagnostics of the response hold no error
once the decoding diagnostics have been appended, both local variables are
assigned (a null field takes the environment reading, any other state its
`ValueString`), all four checks are evaluated, and each appends its diagnostic
exactly when its own condition on the inputs holds, whether or not another
check reported an error; the result is the accumulation of all of them in the
order of the checks. When those diagnostics hold an error, `Configure` returns at once: no check is evaluated, nothing further is
appended, the local variables stay unassigned and the data fields stay as they
were. -/
theorem Configure_accumulates_checks (p : NeodigitProvider) (ps : Process)
    (req : ConfigureRequest) (resp : ConfigureResponse) :
    (Diagnostics.HasError (decodedDiagnostics req resp) = false →
      (p.ConfigureRun ps req resp).endpoint =
        some (if req.Config.Get.1.Endpoint = TypesString.null
          then ps.Getenv "NEODIGIT_ENDPOINT" else req.Config.Get.1.Endpoint.ValueString) ∧
      (p.ConfigureRun ps req resp).api_key =
        some (if req.Config.Get.1.Api_key = TypesString.null
          then ps.Getenv "NEODIGIT_API_KEY" else req.Config.Get.1.Api_key.ValueString) ∧
      (p.Configure ps req resp).Diagnostics =
        decodedDiagnostics req resp
          ++ (if req.Config.Get.1.Endpoint = TypesString.unknown then [unresolvedEndpoint] else [])
          ++ (if req.Config.Get.1.Api_key = TypesString.unknown then [unresolvedApiKey] else [])
          ++ (if (if req.Config.Get.1.Endpoint = TypesString.null
                    then ps.Getenv "NEODIGIT_ENDPOINT"
                    else req.Config.Get.1.Endpoint.ValueString) = ""
                then [missingEndpoint] else [])
          ++ (if (if req.Config.Get.1.Api_key = TypesString.null
                    then ps.Getenv "NEODIGIT_API_KEY"
                    else req.Config.Get.1.Api_key.ValueString) = ""
                then [missingApiKey] else [])) ∧
    (Diagnostics.HasError (decodedDiagnostics req resp) = true →
      p.Configure ps req resp = { resp with Diagnostics := decodedDiagnostics req resp } ∧
      (p.ConfigureRun ps req resp).endpoint = none ∧
      (p.ConfigureRun ps req resp).api_key = none) := by
  constructor
  · intro h
    unfold NeodigitProvider.Configure
    rw [ConfigureRun_of_decoded p ps req resp h]
    rcases TypesString.four_cases req.Config.Get.1.Endpoint with h1 | h1 | h1 | ⟨_, hv, h1⟩ <;>
      rcases TypesString.four_cases req.Config.Get.1.Api_key with h2 | h2 | h2 | ⟨_, hw, h2⟩ <;>
      simp [*, TypesString.IsUnknown, TypesString.IsNull, TypesString.ValueString]
  · intro h
    unfold NeodigitProvider.Configure
    rw [ConfigureRun_of_decode_error p ps req resp h]
    exact ⟨rfl, rfl, rfl⟩

/-- Witness of the amended C7: an unknown endpoint next to an absent API key
with the environment unset gives three errors in the order of the checks and
empty local variables; a failed decoding gives the decoding error only. -/
theorem Configure_accumulates_checks_witness :
    ((New "dev" ()).ConfigureRun (processOf [])
        (requestOf TypesString.unknown TypesString.null) emptyResponse).endpoint = some "" ∧
    ((New "dev" ()).ConfigureRun (processOf [])
        (requestOf TypesString.unknown TypesString.null) emptyResponse).api_key = some "" ∧
    (NeodigitProvider.Configure (New "dev" ()) (processOf [])
        (requestOf TypesString.unknown TypesString.null) emptyResponse).Diagnostics
      = [] ++ [unresolvedEndpoint] ++ [] ++ [missingEndpoint] ++ [missingApiKey] ∧
    NeodigitProvider.Configure (New "dev" ()) (processOf []) requestDecodeError emptyResponse
      = { emptyResponse with Diagnostics := requestDecodeError.Config.Get.2 } ∧
    ((New "dev" ()).ConfigureRun (processOf []) requestDecodeError emptyResponse).endpoint
      = none :=
  ⟨((Configure_accumulates_checks (New "dev" ()) (processOf [])
      (requestOf TypesString.unknown TypesString.null) emptyResponse).1 (by decide)).1,
    ((Configure_accumulates_checks (New "dev" ()) (processOf [])
      (requestOf TypesString.unknown TypesString.null) emptyResponse).1 (by decide)).2.1,
    ((Configure_accumulates_checks (New "dev" ()) (processOf [])
      (requestOf TypesString.unknown TypesString.null) emptyResponse).1 (by decide)).2.2,
    ((Configure_accumulates_checks (New "dev" ()) (processOf []) requestDecodeError
      emptyResponse).2 (by decide)).1,
    ((Configure_accumulates_checks (New "dev" ()) (processOf []) requestDecodeError
      emptyResponse).2 (by decide)).2.1⟩

/-! ## Unknown fields, count and order of the diagnostics -/

/-- Claim C10: when the checks are reached, an unknown field has the empty
string as effective value whatever the environment holds and contributes
exactly two diagnostics on its own path, the unresolved-value error and later
the missing-value error; the diagnostics added by the checks number twice the
unknown fields plus the non-unknown fields whose effective value is empty, and
they appear in the order unresolved-endpoint, unresolved-API-key,
missing-endpoint, missing-API-key. -/
theorem Configure_unknown_count_order (p : NeodigitProvider) (ps : Process)
    (req : ConfigureRequest) (resp : ConfigureResponse)
    (h : Diagnostics.HasError (decodedDiagnostics req resp) = false) :
    (req.Config.Get.1.Endpoint = TypesString.unknown →
      (p.ConfigureRun ps req resp).endpoint = some "") ∧
    (req.Config.Get.1.Api_key = TypesString.unknown →
      (p.ConfigureRun ps req resp).api_key = some "") ∧
    ∃ added : List Diagnostic,
      (p.Configure ps req resp).Diagnostics = decodedDiagnostics req resp ++ added ∧
      List.Sublist added
        [unresolvedEndpoint, unresolvedApiKey, missingEndpoint, missingApiKey] ∧
      added.length =
        2 * ((if req.Config.Get.1.Endpoint = TypesString.unknown then 1 else 0)
            + (if req.Config.Get.1.Api_key = TypesString.unknown then 1 else 0))
          + ((if req.Config.Get.1.Endpoint ≠ TypesString.unknown ∧
                  (p.ConfigureRun ps req resp).endpoint = some "" then 1 else 0)
            + (if req.Config.Get.1.Api_key ≠ TypesString.unknown ∧
                  (p.ConfigureRun ps req resp).api_key = some "" then 1 else 0)) ∧
      (req.Config.Get.1.Endpoint = TypesString.unknown →
        added.filter (fun d => decide (d.path = some "endpoint"))
          = [unresolvedEndpoint, missingEndpoint]) ∧
      (req.Config.Get.1.Api_key = TypesString.unknown →
        added.filter (fun d => decide (d.path = some "api_key"))
          = [unresolvedApiKey, missingApiKey]) := by
  unfold NeodigitProvider.Configure
  rw [ConfigureRun_of_decoded p ps req resp h]
  refine ⟨?_, ?_, ?_⟩
  · intro hu; simp [hu, TypesString.IsNull, TypesString.ValueString]
  · intro hu; simp [hu, TypesString.IsNull, TypesString.ValueString]
  · refine ⟨(if req.Config.Get.1.Endpoint.IsUnknown then [unresolvedEndpoint] else [])
        ++ ((if req.Config.Get.1.Api_key.IsUnknown then [unresolvedApiKey] else [])
        ++ ((if (if req.Config.Get.1.Endpoint.IsNull then ps.Getenv "NEODIGIT_ENDPOINT"
                  else req.Config.Get.1.Endpoint.ValueString) = ""
              then [missingEndpoint] else [])
        ++ (if (if req.Config.Get.1.Api_key.IsNull then ps.Getenv "NEODIGIT_API_KEY"
                  else req.Config.Get.1.Api_key.ValueString) = ""
              then [missingApiKey] else []))), ?_, ?_⟩
    · simp only [List.append_assoc]
    · rcases TypesString.four_cases req.Config.Get.1.Endpoint with h1 | h1 | h1 | ⟨_, hv, h1⟩ <;>
        rcases TypesString.four_cases req.Config.Get.1.Api_key with h2 | h2 | h2 | ⟨_, hw, h2⟩ <;>
        by_cases g1 : ps.Getenv "NEODIGIT_ENDPOINT" = "" <;>
        by_cases g2 : ps.Getenv "NEODIGIT_API_KEY" = "" <;>
        simp [*, TypesString.IsUnknown, TypesString.IsNull, TypesString.ValueString] <;>
        decide

/-- Witness of C10: both fields unknown under a populated environment; both
effective values are empty and four diagnostics are added. -/
theorem Configure_unknown_count_order_witness :
    Diagnostics.HasError (decodedDiagnostics
      (requestOf TypesString.unknown TypesString.unknown) emptyResponse) = false ∧
    ((New "dev" ()).ConfigureRun
      (processOf [("NEODIGIT_ENDPOINT", "https://api.example.com"), ("NEODIGIT_API_KEY", "k1")])
      (requestOf TypesString.unknown TypesString.unknown) emptyResponse).endpoint = some "" ∧
    ((New "dev" ()).ConfigureRun
      (processOf [("NEODIGIT_ENDPOINT", "https://api.example.com"), ("NEODIGIT_API_KEY", "k1")])
      (requestOf TypesString.unknown TypesString.unknown) emptyResponse).api_key = some "" ∧
    ∃ added : List Diagnostic,
      (NeodigitProvider.Configure (New "dev" ())
        (processOf [("NEODIGIT_ENDPOINT", "https://api.example.com"), ("NEODIGIT_API_KEY", "k1")])
        (requestOf TypesString.unknown TypesString.unknown) emptyResponse).Diagnostics
        = [] ++ added ∧ added.length = 4 := by
  have t := Configure_unknown_count_order (New "dev" ())
    (processOf [("NEODIGIT_ENDPOINT", "https://api.example.com"), ("NEODIGIT_API_KEY", "k1")])
    (requestOf TypesString.unknown TypesString.unknown) emptyResponse (by decide)
  obtain ⟨added, h1, _, h3, _, _⟩ := t.2.2
  exact ⟨by decide, t.1 rfl, t.2.1 rfl, added, h1, h3.trans (by decide)⟩

end Neodigit
